import Mathlib

/-!
Shallow embedding of `augraphy/augmentations/lightinggradient.py`
(class `LightingGradient`): the parallel-light mask generator
(`generate_parallel_light_mask`, `apply_decay_value_norm`,
`apply_decay_value_linear`) and the compositing `__call__` method,
together with theorems settling the specification's claims.

Modelling conventions:
* Python/NumPy floating-point values are modelled exactly: by rationals
  where the source computes rational functions, and by real numbers
  where it uses `exp`, `sqrt`, `cos`, `sin` (transcendental values).
* `uint8` buffers are modelled as natural-number valued arrays; the
  NumPy float to uint8 cast is truncation toward zero followed by
  reduction mod 256; uint8 subtraction is arithmetic mod 256.
* `random.randint` / `random.uniform` consume an explicit random source
  (`RandSrc`) through a cursor index, so that random-number consumption
  is an observable part of each operation's result.
* NumPy arrays of the `__call__` method live in an explicit heap
  (`Heap`) of buffers addressed by natural-number ids, so that in-place
  writes and buffer allocation are representable and claims about
  mutation of the caller's buffer can be stated.
-/

namespace LightingGradient

/-- Truncation toward zero on rationals (the C float-to-int cast). -/
def rat_trunc (q : ℚ) : ℤ := if 0 ≤ q then ⌊q⌋ else ⌈q⌉

/-- NumPy float to uint8 cast: truncate toward zero, reduce mod 256. -/
def u8_of_rat (q : ℚ) : ℕ := ((rat_trunc q) % 256).toNat

/-- Truncation toward zero on reals (the C float-to-int cast). -/
noncomputable def real_trunc (x : ℝ) : ℤ := if 0 ≤ x then ⌊x⌋ else ⌈x⌉

/-- Float to uint8 cast for real-valued intermediate results. -/
noncomputable def u8_of_real (x : ℝ) : ℕ := ((real_trunc x) % 256).toNat

/-- Random source: a stream of raw integer draws (for `random.randint`)
and of unit-interval draws (for `random.uniform`), read at a cursor. -/
structure RandSrc where
  ints : ℕ → ℕ
  units : ℕ → ℚ

/-- Model of `random.randint(a, b)`: uniform on the inclusive range
`[a, b]`; the raw draw is reduced into the range and the cursor moves
by one. -/
def randint (a b : ℤ) (src : RandSrc) (k : ℕ) : ℤ × ℕ :=
  (a + (src.ints k : ℤ) % (b - a + 1), k + 1)

/-- Model of `random.uniform(a, b)`: `a + (b - a) * u` for a unit draw
`u`; the cursor moves by one. -/
def uniform_draw (a b : ℚ) (src : RandSrc) (k : ℕ) : ℚ × ℕ :=
  (a + (b - a) * src.units k, k + 1)

/-- Source lines 96-101: resolve the light position; when unset, sample
`pos_x = random.randint(0, w)` then `pos_y = random.randint(0, h)`
(both ranges inclusive). -/
def resolve_position (position : Option (ℤ × ℤ)) (w h : ℕ) (src : RandSrc) (k : ℕ) :
    (ℤ × ℤ) × ℕ :=
  match position with
  | some p => (p, k)
  | none =>
      let rx := randint 0 (w : ℤ) src k
      let ry := randint 0 (h : ℤ) src rx.2
      ((rx.1, ry.1), ry.2)

/-- Source lines 102-103: resolve the direction; when unset, sample
`random.randint(0, 360)` (inclusive on both ends). -/
def resolve_direction (direction : Option ℤ) (src : RandSrc) (k : ℕ) : ℤ × ℕ :=
  match direction with
  | some d => (d, k)
  | none => randint 0 360 src k

/-- Source lines 104-106: a linear decay rate is sampled from
`uniform(0.2, 2)` only when it is unset and the original
(pre-normalization) mode string equals "linear_static". -/
def resolve_linear_rate (rate : Option ℚ) (mode : String) (src : RandSrc) (k : ℕ) :
    Option ℚ × ℕ :=
  match rate with
  | some r => (some r, k)
  | none =>
      if mode = "linear_static" then
        let u := uniform_draw (1/5) 2 src k
        (some u.1, u.2)
      else (none, k)

/-- Source lines 165-174, `apply_decay_value_norm`: the Gaussian decay
profile value at row index `x`.  `radius = grange / 3`; the standard
normal density at `u = (x - center) / |radius|` is divided by the
density at the center and rescaled into `[min_value, max_value]`. -/
noncomputable def apply_decay_value_norm (max_value min_value : ℝ) (center : ℤ)
    (grange : ℝ) (x : ℕ) : ℝ :=
  let radius := grange / 3
  let center_prob := 1 / (Real.sqrt (2 * Real.pi) * |radius|)
  let u := ((x : ℝ) - (center : ℝ)) / |radius|
  let x_prob := (1 / (Real.sqrt (2 * Real.pi) * |radius|)) * Real.exp (-u * u / 2)
  (x_prob / center_prob) * (max_value - min_value) + min_value

/-- Source lines 193-197, `apply_decay_value_linear`: the linear decay
profile value at row index `x`.  The clamp to `1` is applied only when
`max_value - |padding_center - x| * decay_rate` is strictly negative;
a result in `[0, 1)` is written unchanged. -/
def apply_decay_value_linear (max_value : ℚ) (padding_center : ℤ) (decay_rate : ℚ)
    (x : ℕ) : ℚ :=
  let x_value := max_value - |(padding_center : ℚ) - (x : ℚ)| * decay_rate
  if x_value < 0 then 1 else x_value

/-- Affine transform matrix, as two rows `(a, b, c)` and `(d, e, f)`. -/
structure Affine where
  a : ℝ
  b : ℝ
  c : ℝ
  d : ℝ
  e : ℝ
  f : ℝ

/-- Model of `cv2.getRotationMatrix2D(center, angle, 1)`: rotation by
`angle` degrees around `(cx, cy)` with unit scale. -/
noncomputable def getRotationMatrix2D (cx cy : ℝ) (angle : ℝ) : Affine :=
  let al := Real.cos (angle * Real.pi / 180)
  let be := Real.sin (angle * Real.pi / 180)
  ⟨al, be, (1 - al) * cx - be * cy, -be, al, be * cx + (1 - al) * cy⟩

/-- Model of `cv2.invertAffineTransform`: invert via the determinant
reciprocal, with the OpenCV convention that a zero determinant yields
the zero reciprocal. -/
noncomputable def invertAffine (M : Affine) : Affine :=
  let D := M.a * M.e - M.b * M.d
  let Di := if D = 0 then 0 else 1 / D
  ⟨M.e * Di, -M.b * Di, (M.b * M.f - M.c * M.e) * Di,
   -M.d * Di, M.a * Di, (M.c * M.d - M.a * M.f) * Di⟩

/-- Floating-point 2-D buffer (the mask canvas during generation). -/
structure Mat where
  rows : ℕ
  cols : ℕ
  data : ℕ → ℕ → ℝ

/-- Pixel read with the constant-zero border used by `cv2.warpAffine`. -/
def Mat.pixel (m : Mat) (y x : ℤ) : ℝ :=
  if 0 ≤ y ∧ y < (m.rows : ℤ) ∧ 0 ≤ x ∧ x < (m.cols : ℤ) then
    m.data y.toNat x.toNat
  else 0

/-- Bilinear interpolation of `m` at real coordinates `(fx, fy)`. -/
noncomputable def bilinear (m : Mat) (fx fy : ℝ) : ℝ :=
  let x0 := ⌊fx⌋
  let y0 := ⌊fy⌋
  let ax := fx - (x0 : ℝ)
  let ay := fy - (y0 : ℝ)
  (1 - ay) * ((1 - ax) * Mat.pixel m y0 x0 + ax * Mat.pixel m y0 (x0 + 1)) +
    ay * ((1 - ax) * Mat.pixel m (y0 + 1) x0 + ax * Mat.pixel m (y0 + 1) (x0 + 1))

/-- Model of `cv2.warpAffine(src, M, (dw, dh))`: the matrix is inverted
and each destination pixel bilinearly samples the source. -/
noncomputable def warpAffine (src : Mat) (M : Affine) (dw dh : ℕ) : Mat :=
  let Mi := invertAffine M
  { rows := dh, cols := dw,
    data := fun y x =>
      bilinear src (Mi.a * (x : ℝ) + Mi.b * (y : ℝ) + Mi.c)
        (Mi.d * (x : ℝ) + Mi.e * (y : ℝ) + Mi.f) }

/-- NumPy 2-D slice `m[r0:r1, c0:c1]` with NumPy's clamping of slice
bounds to the array extent. -/
def slice2d (m : Mat) (r0 r1 c0 c1 : ℕ) : Mat :=
  { rows := min r1 m.rows - min r0 m.rows,
    cols := min c1 m.cols - min c0 m.cols,
    data := fun y x => m.data (min r0 m.rows + y) (min c0 m.cols + x) }

/-- Unsigned 8-bit 2-D buffer (values kept as naturals below 256). -/
structure MatN where
  rows : ℕ
  cols : ℕ
  data : ℕ → ℕ → ℕ

/-- Clamp an integer index into `[0, n - 1]` (replicated border). -/
def clamp_index (n : ℕ) (i : ℤ) : ℕ := (max 0 (min i ((n : ℤ) - 1))).toNat

/-- Border-replicating pixel read (`cv2.medianBlur` replicates edges). -/
def MatN.repl (m : MatN) (y x : ℤ) : ℕ :=
  m.data (clamp_index m.rows y) (clamp_index m.cols x)

/-- Model of `cv2.medianBlur(m, 9)`: each output pixel is the median
(element 40 of the 81 values sorted ascending) of the 9 by 9
replicated-border neighborhood. -/
def medianBlur9 (m : MatN) : MatN :=
  { rows := m.rows, cols := m.cols,
    data := fun y x =>
      let vals := (List.range 9).flatMap fun dy =>
        (List.range 9).map fun dx =>
          MatN.repl m ((y : ℤ) + (dy : ℤ) - 4) ((x : ℤ) + (dx : ℤ) - 4)
      (List.insertionSort (· ≤ ·) vals).getD 40 0 }

/-- Source lines 68-142, `generate_parallel_light_mask`: resolve the
randomized parameters, normalize the mode, build the padded canvas
filled row-by-row with the decay profile, rotate it about the light
anchor, crop back to the mask footprint, cast to uint8, median-blur
with aperture 9 and invert.  Returns the finished mask together with
the advanced random cursor.  `padding = int(max(mask_size) * sqrt(2))`
is `Nat.sqrt (2 * m * m)`, the exact floor of `m * sqrt 2`. -/
noncomputable def generate_parallel_light_mask (mask_size : ℕ × ℕ)
    (position : Option (ℤ × ℤ)) (direction : Option ℤ)
    (max_brightness min_brightness : ℚ) (mode : String)
    (linear_decay_rate : Option ℚ) (src : RandSrc) (k : ℕ) : MatN × ℕ :=
  let w := mask_size.1
  let h := mask_size.2
  let pres := resolve_position position w h src k
  let pos := pres.1
  let k1 := pres.2
  let dres := resolve_direction direction src k1
  let dir := dres.1
  let k2 := dres.2
  let rres := resolve_linear_rate linear_decay_rate mode src k2
  let rate0 := rres.1
  let k3 := rres.2
  -- line 108: change invalid mode into gaussian
  let mode1 := if mode ∈ ["linear_dynamic", "linear_static", "gaussian"] then mode
    else "gaussian"
  -- lines 110-111: linear_dynamic derives its rate from the brightness span
  let rate := if mode1 = "linear_dynamic" then
      some ((max_brightness - min_brightness) / ((max w h : ℕ) : ℚ))
    else rate0
  let padding := Nat.sqrt (2 * max w h * max w h)
  let canvas_x := padding * 2 + w
  let canvas_y := padding * 2 + h
  let light_x := (padding : ℤ) + pos.1
  let light_y := (padding : ℤ) + pos.2
  -- lines 117-127: zero canvas; each row y below canvas_y is then filled
  -- with the profile value at y (the loops assign whole rows).  In the
  -- linear branch the rate is always resolved by this point; the
  -- `getD 0` default is unreachable.
  let canvas : Mat :=
    { rows := canvas_y, cols := canvas_x,
      data := fun y _ =>
        if y < canvas_y then
          if mode1 = "gaussian" then
            apply_decay_value_norm (max_brightness : ℝ) (min_brightness : ℝ)
              light_y (h : ℝ) y
          else
            ((apply_decay_value_linear max_brightness light_y (rate.getD 0) y : ℚ) : ℝ)
        else 0 }
  -- lines 130-131: rotate about the light anchor
  let M := getRotationMatrix2D (light_x : ℝ) (light_y : ℝ) (dir : ℝ)
  let rotated := warpAffine canvas M canvas_x canvas_y
  -- lines 133-136: crop back to the mask footprint
  let cropped := slice2d rotated padding (padding + h) padding (padding + w)
  -- line 137: cast to uint8
  let mask8 : MatN := ⟨cropped.rows, cropped.cols, fun y x => u8_of_real (cropped.data y x)⟩
  -- line 139: median blur, aperture 9
  let blurred := medianBlur9 mask8
  -- line 140: invert; uint8 arithmetic 255 - v, i.e. mod 256
  let finished : MatN :=
    ⟨blurred.rows, blurred.cols,
     fun y x => ((255 - (blurred.data y x : ℤ)) % 256).toNat⟩
  (finished, k3)

/-- Rounding to nearest used by OpenCV conversions; half cases are
rounded up here (the C implementation rounds half to even; no claim
depends on exact half-way cases). -/
def cvRound_q (q : ℚ) : ℤ := ⌊q + 1/2⌋

/-- OpenCV 8-bit BGR to HSV per-pixel formula: `V = max(B,G,R)`,
`S = 255 (V - min) / V` and `H` is the hue halved into `[0, 180)`. -/
def bgr2hsv_pix (b g r : ℕ) : ℕ × ℕ × ℕ :=
  let v := max b (max g r)
  let mn := min b (min g r)
  let d : ℚ := (v : ℚ) - (mn : ℚ)
  let s : ℕ := if v = 0 then 0 else (cvRound_q (255 * d / (v : ℚ))).toNat
  let hdeg : ℚ :=
    if d = 0 then 0
    else if v = r then 60 * ((g : ℚ) - (b : ℚ)) / d
    else if v = g then 120 + 60 * ((b : ℚ) - (r : ℚ)) / d
    else 240 + 60 * ((r : ℚ) - (g : ℚ)) / d
  let hdeg2 := if hdeg < 0 then hdeg + 360 else hdeg
  ((cvRound_q (hdeg2 / 2)).toNat, s, v)

/-- OpenCV 8-bit HSV to BGR per-pixel formula, by hue sector. -/
def hsv2bgr_pix (hh s v : ℕ) : ℕ × ℕ × ℕ :=
  let hq : ℚ := (hh : ℚ) * 2 / 60
  let sector := ⌊hq⌋ % 6
  let f : ℚ := hq - (⌊hq⌋ : ℚ)
  let sq : ℚ := (s : ℚ) / 255
  let vq : ℚ := (v : ℚ)
  let p := vq * (1 - sq)
  let q := vq * (1 - sq * f)
  let t := vq * (1 - sq * (1 - f))
  let bgr : ℚ × ℚ × ℚ :=
    if sector = 0 then (p, t, vq)
    else if sector = 1 then (p, vq, q)
    else if sector = 2 then (t, vq, p)
    else if sector = 3 then (vq, q, p)
    else if sector = 4 then (vq, p, t)
    else (q, p, vq)
  ((cvRound_q bgr.1).toNat, (cvRound_q bgr.2.1).toNat, (cvRound_q bgr.2.2).toNat)

/-- NumPy array value: a shape list (`[h, w]` for a 2-D grayscale
raster, `[h, w, c]` for a channelled raster) and uint8 sample data
indexed by row, column, channel (channel 0 carries 2-D data). -/
structure NpArray where
  shape : List ℕ
  data : ℕ → ℕ → ℕ → ℕ

/-- Slice `a[:, :, :3]` (a view; resolved to its value, reads only). -/
def chan_slice3 (a : NpArray) : NpArray :=
  { shape := [a.shape.getD 0 0, a.shape.getD 1 0, min 3 (a.shape.getD 2 0)],
    data := fun y x c => if c < 3 then a.data y x c else 0 }

/-- Slice `a[:, :, c0]`: a 2-D view of one channel. -/
def chan_single (a : NpArray) (c0 : ℕ) : NpArray :=
  { shape := [a.shape.getD 0 0, a.shape.getD 1 0],
    data := fun y x _ => a.data y x c0 }

/-- Model of `cv2.cvtColor(a, cv2.COLOR_GRAY2BGR)`. -/
def gray2bgr_img (a : NpArray) : NpArray :=
  { shape := [a.shape.getD 0 0, a.shape.getD 1 0, 3],
    data := fun y x _ => a.data y x 0 }

/-- Model of `cv2.cvtColor(a, cv2.COLOR_BGR2HSV)` (8-bit). -/
def bgr2hsv_img (a : NpArray) : NpArray :=
  { shape := [a.shape.getD 0 0, a.shape.getD 1 0, 3],
    data := fun y x c =>
      let p := bgr2hsv_pix (a.data y x 0) (a.data y x 1) (a.data y x 2)
      if c = 0 then p.1 else if c = 1 then p.2.1 else if c = 2 then p.2.2 else 0 }

/-- Model of `cv2.cvtColor(a, cv2.COLOR_HSV2BGR)` (8-bit). -/
def hsv2bgr_img (a : NpArray) : NpArray :=
  { shape := [a.shape.getD 0 0, a.shape.getD 1 0, 3],
    data := fun y x c =>
      let p := hsv2bgr_pix (a.data y x 0) (a.data y x 1) (a.data y x 2)
      if c = 0 then p.1 else if c = 1 then p.2.1 else if c = 2 then p.2.2 else 0 }

/-- Source line 232: `hsv[:, :, 2] = hsv[:, :, 2] * transparency +
lighting_mask * (1 - transparency)`; the float result is cast back into
the uint8 array. -/
def blend_value_channel (hsv : NpArray) (mask : MatN) (t : ℚ) : NpArray :=
  { shape := hsv.shape,
    data := fun y x c =>
      if c = 2 then
        u8_of_rat ((hsv.data y x 2 : ℚ) * t + (mask.data y x : ℚ) * (1 - t))
      else hsv.data y x c }

/-- Source line 234: `frame[frame > 255] = 255` (identity on uint8 data,
kept for faithfulness). -/
def clamp255 (a : NpArray) : NpArray :=
  { shape := a.shape,
    data := fun y x c => if 255 < a.data y x c then 255 else a.data y x c }

/-- Source line 238: `np.dstack((frame, image_alpha))`. -/
def dstack_alpha (color alpha : NpArray) : NpArray :=
  { shape := [color.shape.getD 0 0, color.shape.getD 1 0, 4],
    data := fun y x c =>
      if c < 3 then color.data y x c else if c = 3 then alpha.data y x 0 else 0 }

/-- Source lines 211-214: resolve transparency; `uniform(0.5, 0.85)`
when unset. -/
def resolve_transparency (t : Option ℚ) (src : RandSrc) (k : ℕ) : ℚ × ℕ :=
  match t with
  | some v => (v, k)
  | none => uniform_draw (1/2) (17/20) src k

/-- Heap of NumPy buffers addressed by ids, with an allocation cursor;
fresh buffers are placed at `next`. -/
structure Heap where
  mem : ℕ → NpArray
  next : ℕ

/-- Allocate a fresh buffer holding `a`; returns its id. -/
def Heap.alloc (hp : Heap) (a : NpArray) : ℕ × Heap :=
  (hp.next, ⟨Function.update hp.mem hp.next a, hp.next + 1⟩)

/-- Overwrite the buffer at id `i` in place. -/
def Heap.write (hp : Heap) (i : ℕ) (a : NpArray) : Heap :=
  ⟨Function.update hp.mem i a, hp.next⟩

/-- Configuration of a `LightingGradient` instance (constructor fields
used by `__call__`). -/
structure Config where
  light_position : Option (ℤ × ℤ)
  direction : Option ℤ
  max_brightness : ℚ
  min_brightness : ℚ
  mode : String
  linear_decay_rate : Option ℚ
  transparency : Option ℚ

/-- Source lines 202-250, the `__call__` method.  `run` is the value of
`force or self.should_run()`; `should_run` lives in the base
`Augmentation` class, which is not part of the shown source (modelled
from the spec: a per-call probability gate resolving to a Boolean).
When the gate is false the Python function falls through its only `if`
and returns `None`, modelled as `none`.  Otherwise it copies the input
buffer, splits off an alpha channel when the input has 4 channels,
resolves the transparency, converts to HSV (promoting 2-D grayscale
through BGR first), generates the lighting mask, blends it into the
value channel in place, converts back to BGR, clamps, and re-attaches
alpha.  The result is the id of the returned buffer, the final heap and
the advanced random cursor.  (When auxiliary mask/keypoints/boxes are
supplied the source returns them alongside, untouched; this model
returns the image component.) -/
noncomputable def call (cfg : Config) (src : RandSrc) (k : ℕ) (hp : Heap) (img : ℕ)
    (run : Bool) : Option (ℕ × Heap × ℕ) :=
  if run then
    let aCopy := Heap.alloc hp (hp.mem img)
    let frameId := aCopy.1
    let h1 := aCopy.2
    let frame0 := h1.mem frameId
    let hasAlpha : Bool := decide (2 < frame0.shape.length ∧ frame0.shape.getD 2 0 = 4)
    let frame := if hasAlpha then chan_slice3 frame0 else frame0
    let image_alpha := chan_single frame0 3
    let tres := resolve_transparency cfg.transparency src k
    let t := tres.1
    let k1 := tres.2
    let height := frame.shape.getD 0 0
    let width := frame.shape.getD 1 0
    let aHsv :=
      if 2 < frame.shape.length then Heap.alloc h1 (bgr2hsv_img frame)
      else
        let aBgr := Heap.alloc h1 (gray2bgr_img frame)
        Heap.alloc aBgr.2 (bgr2hsv_img (aBgr.2.mem aBgr.1))
    let hsvId := aHsv.1
    let h2 := aHsv.2
    let mres := generate_parallel_light_mask (width, height) cfg.light_position
        cfg.direction cfg.max_brightness cfg.min_brightness cfg.mode
        cfg.linear_decay_rate src k1
    let lighting_mask := mres.1
    let k2 := mres.2
    let h3 := Heap.write h2 hsvId (blend_value_channel (h2.mem hsvId) lighting_mask t)
    let aOut := Heap.alloc h3 (hsv2bgr_img (h3.mem hsvId))
    let outId := aOut.1
    let h4 := aOut.2
    let h5 := Heap.write h4 outId (clamp255 (h4.mem outId))
    let result :=
      if hasAlpha then Heap.alloc h5 (dstack_alpha (h5.mem outId) image_alpha)
      else (outId, h5)
    some (result.1, result.2, k2)
  else none

/-- Image buffer returned by `__call__` (resolved from the final heap);
`none` when the gate skipped the augmentation. -/
noncomputable def callOutput (cfg : Config) (src : RandSrc) (k : ℕ) (hp : Heap)
    (img : ℕ) (run : Bool) : Option NpArray :=
  (call cfg src k hp img run).map fun r => r.2.1.mem r.1

/-- Id of the buffer returned by `__call__`, when it ran. -/
noncomputable def callOutId (cfg : Config) (src : RandSrc) (k : ℕ) (hp : Heap)
    (img : ℕ) (run : Bool) : Option ℕ :=
  (call cfg src k hp img run).map fun r => r.1

/-- Contents of buffer `j` after `__call__` finishes. -/
noncomputable def callMemAfter (cfg : Config) (src : RandSrc) (k : ℕ) (hp : Heap)
    (img : ℕ) (run : Bool) (j : ℕ) : NpArray :=
  match call cfg src k hp img run with
  | some r => r.2.1.mem j
  | none => hp.mem j

/-- Constant random source used in concrete instantiations. -/
def constSrc (n : ℕ) : RandSrc := ⟨fun _ => n, fun _ => 0⟩

/-- Concrete configuration used in concrete instantiations. -/
def cfgEx : Config := ⟨some (0, 0), some 0, 255, 0, "gaussian", none, some (7/10)⟩

/-- Concrete 1 by 1 2-D grayscale image. -/
def grayImg : NpArray := ⟨[1, 1], fun _ _ _ => 0⟩

/-- Heap holding the grayscale image at every id, cursor 1. -/
def grayHeap : Heap := ⟨fun _ => grayImg, 1⟩

/-- Concrete 1 by 1 4-channel image (alpha sample 7). -/
def rgbaImg : NpArray := ⟨[1, 1, 4], fun _ _ c => if c = 3 then 7 else 5⟩

/-- Heap holding the 4-channel image at every id, cursor 1. -/
def rgbaHeap : Heap := ⟨fun _ => rgbaImg, 1⟩

/-- Concrete 1 by 1 3-channel image. -/
def bgrImg : NpArray := ⟨[1, 1, 3], fun _ _ _ => 5⟩

/-- Heap holding the 3-channel image at every id, cursor 1. -/
def bgrHeap : Heap := ⟨fun _ => bgrImg, 1⟩

/-- Helper: when the (original) mode is not "linear_static", rate
resolution is the identity and consumes no randomness. -/
theorem resolve_linear_rate_of_ne (rate : Option ℚ) (mode : String) (src : RandSrc)
    (k : ℕ) (h : mode ≠ "linear_static") :
    resolve_linear_rate rate mode src k = (rate, k) := by
  cases rate <;> simp [resolve_linear_rate, h]

/-- Helper: an unrecognized mode string is normalized to "gaussian". -/
theorem mode_normalize_invalid (mode : String)
    (h : mode ∉ (["linear_dynamic", "linear_static", "gaussian"] : List String)) :
    (if mode ∈ (["linear_dynamic", "linear_static", "gaussian"] : List String)
      then mode else "gaussian") = "gaussian" :=
  if_neg h

/-- Claim C3 counterexample: with max_brightness 255, center 0 and
decay rate 509/2, the linear profile value at index 1 is 1/2: the
spec's formula max(1, 255 - |0 - 1| * 509/2) gives 1 instead, and the
written value is strictly below 1 (the code clamps only strictly
negative results). -/
theorem apply_decay_value_linear_counterexample :
    apply_decay_value_linear 255 0 (509/2) 1 = 1/2 ∧
    apply_decay_value_linear 255 0 (509/2) 1 ≠
      max 1 (255 - |((0 : ℤ) : ℚ) - ((1 : ℕ) : ℚ)| * (509/2)) ∧
    apply_decay_value_linear 255 0 (509/2) 1 < 1 := by
  refine ⟨?_, ?_, ?_⟩ <;>
    norm_num [apply_decay_value_linear, max_def]

/-- Claim C3 amended: in linear mode the profile value at x equals
max(1, max_brightness - |center - x| * rate) whenever that candidate
value is not inside [0, 1); the code clamps to 1 only strictly negative
candidates, so candidates in [0, 1) are written unchanged (and are then
below 1). -/
theorem apply_decay_value_linear_eq_max (max_value : ℚ) (c : ℤ) (rate : ℚ) (x : ℕ)
    (h : max_value - |(c : ℚ) - (x : ℚ)| * rate < 0 ∨
      1 ≤ max_value - |(c : ℚ) - (x : ℚ)| * rate) :
    apply_decay_value_linear max_value c rate x =
      max 1 (max_value - |(c : ℚ) - (x : ℚ)| * rate) := by
  unfold apply_decay_value_linear
  rcases h with h | h
  · rw [if_pos h, max_eq_left (by linarith)]
  · rw [if_neg (by linarith), max_eq_right h]

/-- Witness for the amended claim C3 at a concrete input. -/
theorem apply_decay_value_linear_eq_max_witness :
    (1 ≤ (255 : ℚ) - |((0 : ℤ) : ℚ) - ((1 : ℕ) : ℚ)| * 2) ∧
    apply_decay_value_linear 255 0 2 1 =
      max 1 ((255 : ℚ) - |((0 : ℤ) : ℚ) - ((1 : ℕ) : ℚ)| * 2) :=
  ⟨by norm_num, apply_decay_value_linear_eq_max 255 0 2 1 (Or.inr (by norm_num))⟩

/-- Claim C2: for every mask size with positive width and height, and
any position, direction, brightness range and mode, the finished mask
has dimensions exactly (h, w) and every sample value lies in [0, 255]. -/
theorem generate_parallel_light_mask_dims_range (w h : ℕ) (hw : 0 < w) (hh : 0 < h)
    (position : Option (ℤ × ℤ)) (direction : Option ℤ) (M m : ℚ) (mode : String)
    (rate : Option ℚ) (src : RandSrc) (k : ℕ) :
    (generate_parallel_light_mask (w, h) position direction M m mode rate
        src k).1.rows = h ∧
    (generate_parallel_light_mask (w, h) position direction M m mode rate
        src k).1.cols = w ∧
    ∀ y x : ℕ, (generate_parallel_light_mask (w, h) position direction M m mode rate
        src k).1.data y x ≤ 255 := by
  refine ⟨?_, ?_, ?_⟩
  · simp only [generate_parallel_light_mask, medianBlur9, slice2d, warpAffine]
    omega
  · simp only [generate_parallel_light_mask, medianBlur9, slice2d, warpAffine]
    omega
  · intro y x
    simp only [generate_parallel_light_mask]
    omega

/-- Witness for claim C2 at a concrete input. -/
theorem generate_parallel_light_mask_dims_range_witness :
    0 < 1 ∧
    (generate_parallel_light_mask (1, 1) (some (0, 0)) (some 0) 255 0 "gaussian" none
        (constSrc 0) 0).1.rows = 1 :=
  ⟨by decide,
    (generate_parallel_light_mask_dims_range 1 1 (by decide) (by decide) (some (0, 0))
      (some 0) 255 0 "gaussian" none (constSrc 0) 0).1⟩

/-- Claim C4 counterexample: with the per-call gate off (force false and
should_run false), __call__ returns no image at all (Python None; the
method body has no else branch), not the unchanged input image. -/
theorem call_gate_off_counterexample :
    callOutput cfgEx (constSrc 0) 0 grayHeap 0 false = none ∧
    callOutput cfgEx (constSrc 0) 0 grayHeap 0 false ≠ some (grayHeap.mem 0) := by
  refine ⟨rfl, ?_⟩
  intro h
  rw [show callOutput cfgEx (constSrc 0) 0 grayHeap 0 false = none from rfl] at h
  exact Option.noConfusion h

/-- Claim C4 amended: for every input, when the gating decides the
augmentation does not run, __call__ returns None (no image), leaving
the caller's buffer in the heap untouched. -/
theorem call_gate_off_returns_none (cfg : Config) (src : RandSrc) (k : ℕ) (hp : Heap)
    (img : ℕ) :
    call cfg src k hp img false = none ∧
    callMemAfter cfg src k hp img false img = hp.mem img := by
  exact ⟨rfl, rfl⟩

/-- Claim C7 counterexample: the direction sampler is
random.randint(0, 360), inclusive on both ends; with raw draw 360 the
resolved direction is exactly 360, which the claimed interval [0, 360)
excludes. -/
theorem resolve_direction_counterexample :
    (resolve_direction none (constSrc 360) 0).1 = 360 ∧
    (360 : ℤ) ∉ Finset.Ico (0 : ℤ) 360 := by
  refine ⟨?_, by decide⟩
  simp only [resolve_direction, randint, constSrc]
  decide

/-- Claim C7 amended: whenever direction is unset it is sampled from the
inclusive integer range [0, 360] (361 values); every value of that
range, 360 included, is attainable. -/
theorem resolve_direction_range :
    (∀ (src : RandSrc) (k : ℕ),
      (resolve_direction none src k).1 ∈ Finset.Icc (0 : ℤ) 360) ∧
    (∀ d : ℤ, d ∈ Finset.Icc (0 : ℤ) 360 → ∀ k : ℕ,
      (resolve_direction none (constSrc d.toNat) k).1 = d) := by
  constructor
  · intro src k
    simp only [resolve_direction, randint, Finset.mem_Icc]
    omega
  · intro d hd k
    simp only [Finset.mem_Icc] at hd
    simp only [resolve_direction, randint, constSrc]
    omega

/-- Witness for the amended claim C7: the boundary value 360 is attained. -/
theorem resolve_direction_range_witness :
    (360 : ℤ) ∈ Finset.Icc (0 : ℤ) 360 ∧
    (resolve_direction none (constSrc (360 : ℤ).toNat) 0).1 = 360 :=
  ⟨by decide, resolve_direction_range.2 360 (by decide) 0⟩

/-- Claim C8 counterexample: there is no geometry validation anywhere in
the engine; with a zero-size mask it proceeds to build its buffers and
returns a degenerate 0 by 0 mask instead of failing with any
InvalidDimensions condition (the source defines no error path at all,
so its embedding is a total function). -/
theorem no_invalid_dimensions_check :
    (generate_parallel_light_mask (0, 0) (some (0, 0)) (some 0) 255 0 "gaussian" none
        (constSrc 0) 0).1.rows = 0 ∧
    (generate_parallel_light_mask (0, 0) (some (0, 0)) (some 0) 255 0 "gaussian" none
        (constSrc 0) 0).1.cols = 0 := by
  constructor <;>
    (simp only [generate_parallel_light_mask, medianBlur9, slice2d, warpAffine]; omega)

/-- Claim C8 amended: the engine performs no geometry validation: even
with zero width or height it proceeds to build its buffers and returns
a degenerate (h, w)-shaped mask; no InvalidDimensions failure exists in
the code. -/
theorem generate_parallel_light_mask_no_validation (w h : ℕ) (hz : w = 0 ∨ h = 0)
    (position : Option (ℤ × ℤ)) (direction : Option ℤ) (M m : ℚ) (mode : String)
    (rate : Option ℚ) (src : RandSrc) (k : ℕ) :
    (generate_parallel_light_mask (w, h) position direction M m mode rate
        src k).1.rows = h ∧
    (generate_parallel_light_mask (w, h) position direction M m mode rate
        src k).1.cols = w := by
  constructor <;>
    (simp only [generate_parallel_light_mask, medianBlur9, slice2d, warpAffine]; omega)

/-- Witness for the amended claim C8 at a concrete zero-width input. -/
theorem generate_parallel_light_mask_no_validation_witness :
    ((0 : ℕ) = 0 ∨ (3 : ℕ) = 0) ∧
    (generate_parallel_light_mask (0, 3) (some (0, 0)) (some 0) 255 0 "gaussian" none
        (constSrc 0) 0).1.rows = 3 :=
  ⟨Or.inl rfl,
    (generate_parallel_light_mask_no_validation 0 3 (Or.inl rfl) (some (0, 0)) (some 0)
      255 0 "gaussian" none (constSrc 0) 0).1⟩

/-- Claim C9: invoking mask generation with an unrecognized mode string
produces exactly the same output, including identical random-source
consumption, as invoking it with mode "gaussian" and all other
parameters equal. -/
theorem generate_parallel_light_mask_mode_fallback (mode : String)
    (hmode : mode ∉ (["linear_dynamic", "linear_static", "gaussian"] : List String))
    (ms : ℕ × ℕ) (position : Option (ℤ × ℤ)) (direction : Option ℤ) (M m : ℚ)
    (rate : Option ℚ) (src : RandSrc) (k : ℕ) :
    generate_parallel_light_mask ms position direction M m mode rate src k =
      generate_parallel_light_mask ms position direction M m "gaussian" rate src k := by
  have h1 : mode ≠ "linear_static" := by
    intro h
    exact hmode (by rw [h]; simp)
  simp only [generate_parallel_light_mask,
    resolve_linear_rate_of_ne _ _ _ _ h1,
    resolve_linear_rate_of_ne _ _ _ _ (by decide : ("gaussian" : String) ≠ "linear_static"),
    mode_normalize_invalid _ hmode]
  simp

/-- Witness for claim C9: the literal mode "not_a_mode" coincides with
"gaussian". -/
theorem generate_parallel_light_mask_mode_fallback_witness :
    ("not_a_mode" ∉ (["linear_dynamic", "linear_static", "gaussian"] : List String)) ∧
    generate_parallel_light_mask (2, 2) (some (1, 1)) (some 0) 255 0 "not_a_mode" none
        (constSrc 0) 0 =
      generate_parallel_light_mask (2, 2) (some (1, 1)) (some 0) 255 0 "gaussian" none
        (constSrc 0) 0 :=
  ⟨by decide,
    generate_parallel_light_mask_mode_fallback "not_a_mode" (by decide) (2, 2)
      (some (1, 1)) (some 0) 255 0 none (constSrc 0) 0⟩

/-- Helper: for nonzero grange the normal-mode profile value reduces to
the normalized Gaussian ratio rescaled into the brightness range. -/
theorem apply_decay_value_norm_eq (M m : ℝ) (c : ℤ) (g : ℝ) (hg : g ≠ 0) (x : ℕ) :
    apply_decay_value_norm M m c g x =
      Real.exp (-(((x : ℝ) - (c : ℝ)) / |g / 3|) ^ 2 / 2) * (M - m) + m := by
  simp only [apply_decay_value_norm]
  have hr : (0 : ℝ) < |g / 3| := abs_pos.mpr (div_ne_zero hg (by norm_num))
  have hs : (0 : ℝ) < Real.sqrt (2 * Real.pi) :=
    Real.sqrt_pos.mpr (by positivity)
  have hd : (1 : ℝ) / (Real.sqrt (2 * Real.pi) * |g / 3|) ≠ 0 :=
    one_div_ne_zero (by positivity)
  have harg : -(((x : ℝ) - (c : ℝ)) / |g / 3|) ^ 2 / 2 =
      -(((x : ℝ) - (c : ℝ)) / |g / 3|) * (((x : ℝ) - (c : ℝ)) / |g / 3|) / 2 := by
    ring
  rw [harg, mul_div_cancel_left₀ _ hd]

/-- Claim C5: in Gaussian mode with nonzero grange and an integer center
inside the canvas range, the profile attains its maximum, exactly
max_brightness, at the center index, and is non-increasing moving away
from the center in either direction (for a brightness range with
min_value at most max_value). -/
theorem gaussian_profile_max_and_monotone (M m : ℝ) (c : ℤ) (g : ℝ) (n : ℕ)
    (hg : g ≠ 0) (hmm : m ≤ M) (hc0 : 0 ≤ c) (hcn : c < (n : ℤ)) :
    apply_decay_value_norm M m c g c.toNat = M ∧
    (∀ x : ℕ, x < n → apply_decay_value_norm M m c g x ≤ M) ∧
    (∀ x y : ℕ, x < n → y < n → c ≤ (x : ℤ) → x ≤ y →
      apply_decay_value_norm M m c g y ≤ apply_decay_value_norm M m c g x) ∧
    (∀ x y : ℕ, x < n → y < n → (y : ℤ) ≤ c → x ≤ y →
      apply_decay_value_norm M m c g x ≤ apply_decay_value_norm M m c g y) := by
  have hr : (0 : ℝ) < |g / 3| := abs_pos.mpr (div_ne_zero hg (by norm_num))
  refine ⟨?_, ?_, ?_, ?_⟩
  · rw [apply_decay_value_norm_eq M m c g hg]
    have hct : ((c.toNat : ℕ) : ℝ) = (c : ℝ) := by
      exact_mod_cast Int.toNat_of_nonneg hc0
    rw [hct]
    simp [Real.exp_zero]
  · intro x hx
    rw [apply_decay_value_norm_eq M m c g hg]
    have he : Real.exp (-(((x : ℝ) - (c : ℝ)) / |g / 3|) ^ 2 / 2) ≤ 1 := by
      rw [Real.exp_le_one_iff]
      have : (0 : ℝ) ≤ (((x : ℝ) - (c : ℝ)) / |g / 3|) ^ 2 / 2 := by positivity
      linarith
    have hp := Real.exp_pos (-(((x : ℝ) - (c : ℝ)) / |g / 3|) ^ 2 / 2)
    nlinarith
  · intro x y hx hy hcx hxy
    rw [apply_decay_value_norm_eq M m c g hg, apply_decay_value_norm_eq M m c g hg]
    have h0 : (0 : ℝ) ≤ (x : ℝ) - (c : ℝ) := by
      have : (c : ℝ) ≤ (x : ℝ) := by exact_mod_cast hcx
      linarith
    have h1 : (x : ℝ) - (c : ℝ) ≤ (y : ℝ) - (c : ℝ) := by
      have : (x : ℝ) ≤ (y : ℝ) := by exact_mod_cast hxy
      linarith
    have hsq : (((x : ℝ) - (c : ℝ)) / |g / 3|) ^ 2 ≤
        (((y : ℝ) - (c : ℝ)) / |g / 3|) ^ 2 := by
      rw [div_pow, div_pow]
      have : ((x : ℝ) - (c : ℝ)) ^ 2 ≤ ((y : ℝ) - (c : ℝ)) ^ 2 := by nlinarith
      exact (div_le_div_iff_of_pos_right (by positivity)).mpr this
    have hexp : Real.exp (-(((y : ℝ) - (c : ℝ)) / |g / 3|) ^ 2 / 2) ≤
        Real.exp (-(((x : ℝ) - (c : ℝ)) / |g / 3|) ^ 2 / 2) :=
      Real.exp_le_exp.mpr (by linarith)
    nlinarith
  · intro x y hx hy hyc hxy
    rw [apply_decay_value_norm_eq M m c g hg, apply_decay_value_norm_eq M m c g hg]
    have h0 : (y : ℝ) - (c : ℝ) ≤ 0 := by
      have : (y : ℝ) ≤ (c : ℝ) := by exact_mod_cast hyc
      linarith
    have h1 : (x : ℝ) - (c : ℝ) ≤ (y : ℝ) - (c : ℝ) := by
      have : (x : ℝ) ≤ (y : ℝ) := by exact_mod_cast hxy
      linarith
    have hsq : (((y : ℝ) - (c : ℝ)) / |g / 3|) ^ 2 ≤
        (((x : ℝ) - (c : ℝ)) / |g / 3|) ^ 2 := by
      rw [div_pow, div_pow]
      have : ((y : ℝ) - (c : ℝ)) ^ 2 ≤ ((x : ℝ) - (c : ℝ)) ^ 2 := by nlinarith
      exact (div_le_div_iff_of_pos_right (by positivity)).mpr this
    have hexp : Real.exp (-(((x : ℝ) - (c : ℝ)) / |g / 3|) ^ 2 / 2) ≤
        Real.exp (-(((y : ℝ) - (c : ℝ)) / |g / 3|) ^ 2 / 2) :=
      Real.exp_le_exp.mpr (by linarith)
    nlinarith

/-- Witness for claim C5 at a concrete input: center 1, grange 3,
canvas length 3. -/
theorem gaussian_profile_max_and_monotone_witness :
    ((3 : ℝ) ≠ 0) ∧ apply_decay_value_norm 255 0 1 3 (Int.toNat 1) = 255 :=
  ⟨by norm_num,
    (gaussian_profile_max_and_monotone 255 0 1 3 3 (by norm_num) (by norm_num)
      (by decide) (by decide)).1⟩

/-- Claim C1 counterexample: a 1-channel (2-D) grayscale input, here of
shape [1, 1], is returned as a 3-channel image of shape [1, 1, 3]; the
grayscale promotion to BGR is never undone, so the channel count is not
preserved. -/
theorem call_gray_shape_counterexample :
    (callOutput cfgEx (constSrc 0) 0 grayHeap 0 true).map NpArray.shape =
      some [1, 1, 3] ∧
    (grayHeap.mem 0).shape = [1, 1] ∧ ([1, 1, 3] : List ℕ) ≠ [1, 1] := by
  refine ⟨?_, rfl, by decide⟩
  simp [callOutput, call, Heap.alloc, Heap.write, Function.update_same,
    chan_slice3, chan_single, gray2bgr_img, bgr2hsv_img, hsv2bgr_img,
    blend_value_channel, clamp255, dstack_alpha, List.getD, grayHeap, grayImg, cfgEx]

/-- Claim C1 amended: when the augmentation runs, a 3-channel input
yields a 3-channel output of the same shape and a 4-channel input
yields a 4-channel output of the same shape, but a 1-channel (2-D)
grayscale input yields a 3-channel output of the same height and
width. -/
theorem call_output_shape (cfg : Config) (src : RandSrc) (k : ℕ) (hp : Heap)
    (img : ℕ) (h w : ℕ) :
    ((hp.mem img).shape = [h, w, 3] →
      (callOutput cfg src k hp img true).map NpArray.shape = some [h, w, 3]) ∧
    ((hp.mem img).shape = [h, w, 4] →
      (callOutput cfg src k hp img true).map NpArray.shape = some [h, w, 4]) ∧
    ((hp.mem img).shape = [h, w] →
      (callOutput cfg src k hp img true).map NpArray.shape = some [h, w, 3]) := by
  refine ⟨fun hsh => ?_, fun hsh => ?_, fun hsh => ?_⟩ <;>
    simp [callOutput, call, Heap.alloc, Heap.write, Function.update_same, hsh,
      chan_slice3, chan_single, gray2bgr_img, bgr2hsv_img, hsv2bgr_img,
      blend_value_channel, clamp255, dstack_alpha, List.getD]

/-- Witness for the amended claim C1 at a concrete 3-channel input. -/
theorem call_output_shape_witness :
    (bgrHeap.mem 0).shape = [1, 1, 3] ∧
    (callOutput cfgEx (constSrc 0) 0 bgrHeap 0 true).map NpArray.shape =
      some [1, 1, 3] :=
  ⟨rfl, (call_output_shape cfgEx (constSrc 0) 0 bgrHeap 0 1 1).1 rfl⟩

/-- Claim C6: for every 4-channel input on which the augmentation runs,
every sample of the 4th (alpha) channel of the returned image is
identical to the corresponding sample of the input's 4th channel. -/
theorem call_alpha_preserved (cfg : Config) (src : RandSrc) (k : ℕ) (hp : Heap)
    (img : ℕ) (h w y x : ℕ) (hsh : (hp.mem img).shape = [h, w, 4]) :
    (callOutput cfg src k hp img true).map (fun a => a.data y x 3) =
      some ((hp.mem img).data y x 3) := by
  simp [callOutput, call, Heap.alloc, Heap.write, Function.update_same, hsh,
    chan_slice3, chan_single, gray2bgr_img, bgr2hsv_img, hsv2bgr_img,
    blend_value_channel, clamp255, dstack_alpha, List.getD]

/-- Witness for claim C6 at a concrete 4-channel input. -/
theorem call_alpha_preserved_witness :
    (rgbaHeap.mem 0).shape = [1, 1, 4] ∧
    (callOutput cfgEx (constSrc 0) 0 rgbaHeap 0 true).map (fun a => a.data 0 0 3) =
      some ((rgbaHeap.mem 0).data 0 0 3) :=
  ⟨rfl, call_alpha_preserved cfgEx (constSrc 0) 0 rgbaHeap 0 1 1 0 0 rfl⟩

/-- Claim C10: __call__ never mutates the caller's input buffer (all
work happens on a fresh copy), and when it runs, the returned buffer is
a freshly allocated one, distinct from the input buffer. -/
theorem call_no_input_mutation (cfg : Config) (src : RandSrc) (k : ℕ) (hp : Heap)
    (img : ℕ) (run : Bool) (himg : img < hp.next) :
    callMemAfter cfg src k hp img run img = hp.mem img ∧
    callOutId cfg src k hp img run ≠ some img := by
  cases run
  case false => exact ⟨rfl, by simp [callOutId, call]⟩
  case true =>
    have e0 : img ≠ hp.next := by omega
    have e1 : img ≠ hp.next + 1 := by omega
    have e2 : img ≠ hp.next + 1 + 1 := by omega
    have e3 : img ≠ hp.next + 1 + 1 + 1 := by omega
    have e4 : img ≠ hp.next + 1 + 1 + 1 + 1 := by omega
    rcases hs : (hp.mem img).shape with _ | ⟨a, _ | ⟨b, _ | ⟨c, rest⟩⟩⟩
    · constructor
      · simp [callMemAfter, call, Heap.alloc, Heap.write, hs, chan_slice3,
          Function.update_same, Function.update_noteq e0, Function.update_noteq e1,
          Function.update_noteq e2, Function.update_noteq e3, Function.update_noteq e4]
      · simp [callOutId, call, Heap.alloc, Heap.write, hs, chan_slice3]
        omega
    · constructor
      · simp [callMemAfter, call, Heap.alloc, Heap.write, hs, chan_slice3,
          Function.update_same, Function.update_noteq e0, Function.update_noteq e1,
          Function.update_noteq e2, Function.update_noteq e3, Function.update_noteq e4]
      · simp [callOutId, call, Heap.alloc, Heap.write, hs, chan_slice3]
        omega
    · constructor
      · simp [callMemAfter, call, Heap.alloc, Heap.write, hs, chan_slice3,
          Function.update_same, Function.update_noteq e0, Function.update_noteq e1,
          Function.update_noteq e2, Function.update_noteq e3, Function.update_noteq e4]
      · simp [callOutId, call, Heap.alloc, Heap.write, hs, chan_slice3]
        omega
    · by_cases hc : c = 4
      · constructor
        · simp [callMemAfter, call, Heap.alloc, Heap.write, hs, hc, chan_slice3,
            Function.update_same, Function.update_noteq e0, Function.update_noteq e1,
            Function.update_noteq e2, Function.update_noteq e3, Function.update_noteq e4]
        · simp [callOutId, call, Heap.alloc, Heap.write, hs, hc, chan_slice3]
          omega
      · constructor
        · simp [callMemAfter, call, Heap.alloc, Heap.write, hs, hc, chan_slice3,
            Function.update_same, Function.update_noteq e0, Function.update_noteq e1,
            Function.update_noteq e2, Function.update_noteq e3, Function.update_noteq e4]
        · simp [callOutId, call, Heap.alloc, Heap.write, hs, hc, chan_slice3]
          omega

/-- Witness for claim C10 at a concrete heap and input id. -/
theorem call_no_input_mutation_witness :
    (0 : ℕ) < grayHeap.next ∧
    callMemAfter cfgEx (constSrc 0) 0 grayHeap 0 true 0 = grayHeap.mem 0 :=
  ⟨by decide,
    (call_no_input_mutation cfgEx (constSrc 0) 0 grayHeap 0 true (by decide)).1⟩

end LightingGradient
